import Mathlib

/-!
Shallow embedding of the crypto-payment path of the NordicPharma
ecommerce backend (Django + Celery), covering:

* `src/apps/payments/models.py`   — Payment, CryptoWallet rows (and the
  Order row from `src/apps/orders/models.py`);
* `src/apps/payments/api.py`      — the initiate endpoint and the
  webhook endpoint;
* `src/apps/payments/tasks.py`    — the confirmation-monitoring task and
  the expiry sweep;
* `src/apps/payments/crypto/bitcoin.py`, `ethereum.py` — amount
  computation and the amount-matching test of the address monitors.

Database rows become structures; a row mutation followed by `save()`
becomes a function from the old row(s) to the new row(s).  The wall
clock (`timezone.now()`) is passed in as a `Nat` parameter.  Monetary
and crypto quantities (Python `Decimal`) are modelled as `ℚ`: the
default Decimal context carries 28 significant digits, which is never
binding for amounts in the ranges the schema admits (10-digit fiat
amounts, 20-digit crypto amounts), so Decimal division is modelled as
exact rational division and `Decimal.quantize` as rounding half-to-even
at the requested number of decimal places.
-/

/-- Payment.STATUS_CHOICES (models.py). -/
inductive PaymentStatus
  | pending
  | processing
  | confirmed
  | failed
  | expired
  | refunded
deriving DecidableEq, Repr

/-- Order.STATUS_CHOICES (orders/models.py). -/
inductive OrderStatus
  | pending
  | processing
  | paid
  | shipped
  | delivered
  | cancelled
  | refunded
deriving DecidableEq, Repr

/-- The payment methods admitted by PaymentInitiateSchema (schemas.py
restricts the field to these three literals, so the api.py branch for
unsupported methods is unreachable through the endpoint). -/
inductive PaymentMethod
  | crypto_btc
  | crypto_eth
  | crypto_usdt
deriving DecidableEq, Repr

/-- The Payment row (payments/models.py).  Columns not read or written
by the verified operations (user and order foreign keys, fiat currency,
external_id, created_at, updated_at) are omitted.  A blank
transaction_hash column (Django CharField default) is the empty
string. -/
structure Payment where
  payment_method : PaymentMethod
  status : PaymentStatus
  amount : ℚ
  crypto_amount : ℚ
  crypto_currency : String
  wallet_address : String
  transaction_hash : String
  confirmations : Int
  required_confirmations : Int
  confirmed_at : Option Nat
  expires_at : Option Nat
deriving DecidableEq, Repr

/-- The Order row (orders/models.py), restricted to the columns the
payment workflow touches. -/
structure Order where
  status : OrderStatus
  total : ℚ
  paid_at : Option Nat
deriving DecidableEq, Repr

/-- The CryptoWallet row (payments/models.py); private key and
timestamps omitted.  is_used defaults to False at creation. -/
structure CryptoWallet where
  currency : String
  address : String
  is_used : Bool
deriving DecidableEq, Repr

/-- WebhookPayloadSchema (schemas.py); payment_id performs the row
lookup (a miss answers 404 and touches nothing) and amount /
from_address are never read by the endpoint, so only the two fields the
endpoint applies are kept. -/
structure WebhookPayload where
  transaction_hash : String
  confirmations : Int
deriving DecidableEq, Repr

/-- The dict returned by check_transaction (bitcoin.py / ethereum.py);
the monitoring task reads only the confirmations entry. -/
structure TxInfo where
  confirmations : Int
deriving DecidableEq, Repr

/-- payment_webhook (api.py lines 121-164), on the payment row found by
payment_id and its owning order.  The endpoint unconditionally stores
the payload's transaction hash and confirmation count; when the payload
count reaches required_confirmations it marks the payment confirmed,
stamps confirmed_at, and marks the order paid with paid_at stamped,
saving both rows. -/
def payment_webhook (now : Nat) (data : WebhookPayload) (p : Payment) (o : Order) :
    Payment × Order :=
  let p1 := { p with
    transaction_hash := data.transaction_hash
    confirmations := data.confirmations }
  if p1.required_confirmations ≤ data.confirmations then
    ({ p1 with status := PaymentStatus.confirmed, confirmed_at := some now },
     { o with status := OrderStatus.paid, paid_at := some now })
  else
    (p1, o)

/-- monitor_transaction_confirmations (tasks.py lines 55-104): returns
unchanged when the payment is not processing or has no recorded hash
(blank CharField is falsy) or the ledger query returned nothing;
otherwise stores the queried confirmation count and, at threshold,
confirms the payment and marks the order paid.  The re-scheduling of
the task below threshold is a scheduler side effect, not row state. -/
def monitor_transaction_confirmations (now : Nat) (tx_info : Option TxInfo)
    (p : Payment) (o : Order) : Payment × Order :=
  if p.status ≠ PaymentStatus.processing ∨ p.transaction_hash = "" then
    (p, o)
  else
    match tx_info with
    | none => (p, o)
    | some info =>
      let p1 := { p with confirmations := info.confirmations }
      if p1.required_confirmations ≤ info.confirmations then
        ({ p1 with status := PaymentStatus.confirmed, confirmed_at := some now },
         { o with status := OrderStatus.paid, paid_at := some now })
      else
        (p1, o)

/-- The filter of check_expired_payments (tasks.py lines 123-126):
status is pending and expires_at is strictly before now (a NULL
expires_at never satisfies the SQL comparison). -/
def pendingAndTimedOut (now : Nat) (p : Payment) : Bool :=
  decide (p.status = PaymentStatus.pending) &&
    match p.expires_at with
    | some e => decide (e < now)
    | none => false

/-- The per-payment body of check_expired_payments (tasks.py lines
128-133), on one payment together with its owning order and its wallet
rows: a payment matching the filter is marked expired and every one of
its wallets gets is_used = False; any other payment (and the order,
which the sweep never references) is untouched. -/
def expire_step (now : Nat) (entry : Payment × Order × List CryptoWallet) :
    Payment × Order × List CryptoWallet :=
  let (p, o, ws) := entry
  if pendingAndTimedOut now p then
    ({ p with status := PaymentStatus.expired }, o,
     ws.map fun w => { w with is_used := false })
  else
    (p, o, ws)

/-- check_expired_payments (tasks.py lines 120-135) over the whole
table. -/
def check_expired_payments (now : Nat)
    (db : List (Payment × Order × List CryptoWallet)) :
    List (Payment × Order × List CryptoWallet) :=
  db.map (expire_step now)

/-- Round to the nearest integer, ties to even: the rounding mode
(ROUND_HALF_EVEN) that Python Decimal.quantize applies by default. -/
def roundHalfEven (x : ℚ) : ℤ :=
  if Int.fract x < 1 / 2 then ⌊x⌋
  else if 1 / 2 < Int.fract x then ⌊x⌋ + 1
  else if 2 ∣ ⌊x⌋ then ⌊x⌋ else ⌊x⌋ + 1

/-- Decimal.quantize at a step of 10 ^ (-places) with the default
ROUND_HALF_EVEN rounding. -/
def quantizeDec (places : ℕ) (x : ℚ) : ℚ :=
  (roundHalfEven (x * 10 ^ places) : ℚ) / 10 ^ places

namespace BitcoinPaymentProcessor

/-- get_btc_price (bitcoin.py lines 41-45): the configured spot price,
a constant placeholder value of EUR 35000. -/
def get_btc_price : ℚ := 35000

/-- calculate_crypto_amount (bitcoin.py lines 47-50):
the quotient eur_amount / btc_price quantized at step 0.00000001,
i.e. 8 decimal places. -/
def calculate_crypto_amount (eur_amount : ℚ) : ℚ :=
  quantizeDec 8 (eur_amount / get_btc_price)

/-- The acceptance test of monitor_address (bitcoin.py line 87): an
output value is taken as the payment when
amount_btc >= expected_amount * 0.99. -/
def monitor_address_accepts (expected_amount amount_btc : ℚ) : Bool :=
  decide (expected_amount * (99 / 100) ≤ amount_btc)

end BitcoinPaymentProcessor

namespace EthereumPaymentProcessor

/-- get_eth_price (ethereum.py lines 19-23): the configured spot price,
a constant placeholder value of EUR 2500. -/
def get_eth_price : ℚ := 2500

/-- calculate_crypto_amount (ethereum.py lines 25-28):
the quotient eur_amount / eth_price quantized at step 0.000001, i.e. 6
decimal places. -/
def calculate_crypto_amount (eur_amount : ℚ) : ℚ :=
  quantizeDec 6 (eur_amount / get_eth_price)

/-- The acceptance test of monitor_address (ethereum.py line 65): a
transaction value is taken as the payment when
value >= expected_amount * 0.99. -/
def monitor_address_accepts (expected_amount value : ℚ) : Bool :=
  decide (expected_amount * (99 / 100) ≤ value)

end EthereumPaymentProcessor

/-- Outcomes of the initiate endpoint that the duplicate-payment rule
distinguishes. -/
inductive InitiateOutcome
  | http400_duplicate
  | integrity_error
  | created (p : Payment) (w : CryptoWallet)
deriving DecidableEq, Repr

/-- initiate_payment (api.py lines 24-105) for the order identified by
the request, whose current payment row (if any) is passed as existing.
The freshly generated receiving address stands in for
processor.generate_wallet().  Lines 31-37 answer 400 when a payment
exists whose status is not failed.  Otherwise the endpoint runs
Payment.objects.create(order=order, ...): Payment.order is a
OneToOneField (models.py line 25), so when any payment row for this
order already exists — in particular a failed one, which passed the
status check — the INSERT violates the unique constraint on order_id
and raises IntegrityError (the atomic transaction rolls back, nothing
is created); that database outcome is the integrity_error branch.  With
no prior payment, a pending payment expiring 30 minutes out and its
wallet row (is_used defaults to False) are created. -/
def initiate_payment (now : Nat) (orderTotal : ℚ) (method : PaymentMethod)
    (address : String) (existing : Option Payment) : InitiateOutcome :=
  if (match existing with
      | some prev => decide (prev.status ≠ PaymentStatus.failed)
      | none => false) then
    InitiateOutcome.http400_duplicate
  else
    let cc : String :=
      match method with
      | PaymentMethod.crypto_btc => "BTC"
      | PaymentMethod.crypto_eth => "ETH"
      | PaymentMethod.crypto_usdt => "USDT"
    let ca : ℚ :=
      match method with
      | PaymentMethod.crypto_btc =>
          BitcoinPaymentProcessor.calculate_crypto_amount orderTotal
      | _ => EthereumPaymentProcessor.calculate_crypto_amount orderTotal
    match existing with
    | some _ => InitiateOutcome.integrity_error
    | none =>
        InitiateOutcome.created
          { payment_method := method
            status := PaymentStatus.pending
            amount := orderTotal
            crypto_amount := ca
            crypto_currency := cc
            wallet_address := address
            transaction_hash := ""
            confirmations := 0
            required_confirmations := 3
            confirmed_at := none
            expires_at := some (now + 30 * 60) }
          { currency := cc, address := address, is_used := false }

/-- A sample pending BTC payment row as the initiate endpoint creates
it: EUR 49.00 order, 0.00140000 BTC, expiring 30 minutes (1800 s)
after creation at time 0. -/
def basePayment : Payment :=
  { payment_method := PaymentMethod.crypto_btc
    status := PaymentStatus.pending
    amount := 49
    crypto_amount := 14 / 10000
    crypto_currency := "BTC"
    wallet_address := "tb1qsample"
    transaction_hash := ""
    confirmations := 0
    required_confirmations := 3
    confirmed_at := none
    expires_at := some 1800 }

/-- The sample payment's owning order. -/
def baseOrder : Order :=
  { status := OrderStatus.pending, total := 49, paid_at := none }

/-- Round half to even never moves a value by more than half a unit. -/
theorem abs_sub_roundHalfEven_le (x : ℚ) : |x - roundHalfEven x| ≤ 1 / 2 := by
  have hf0 : 0 ≤ Int.fract x := Int.fract_nonneg x
  have hf1 : Int.fract x < 1 := Int.fract_lt_one x
  have hx : x - ⌊x⌋ = Int.fract x := Int.self_sub_floor x
  unfold roundHalfEven
  split_ifs with h1 h2 h3
  · rw [abs_of_nonneg (by linarith [hx])]
    linarith [hx]
  · push_cast
    rw [abs_of_nonpos (by linarith [hx])]
    linarith [hx]
  · have : Int.fract x = 1 / 2 := le_antisymm (not_lt.mp h2) (not_lt.mp h1)
    rw [abs_of_nonneg (by linarith [hx])]
    linarith [hx]
  · have : Int.fract x = 1 / 2 := le_antisymm (not_lt.mp h2) (not_lt.mp h1)
    push_cast
    rw [abs_of_nonpos (by linarith [hx])]
    linarith [hx]

/-- Quantizing at a given number of decimal places never moves a value
by more than half of the last retained place. -/
theorem abs_sub_quantizeDec_le (places : ℕ) (x : ℚ) :
    |x - quantizeDec places x| ≤ 1 / (2 * 10 ^ places) := by
  unfold quantizeDec
  have hpow : (0 : ℚ) < 10 ^ places := by positivity
  have h := abs_sub_roundHalfEven_le (x * 10 ^ places)
  have hrw : |x - (roundHalfEven (x * 10 ^ places) : ℚ) / 10 ^ places|
      = |x * 10 ^ places - (roundHalfEven (x * 10 ^ places) : ℚ)| / 10 ^ places := by
    rw [← abs_of_pos hpow, ← abs_div]
    congr 1
    field_simp
  rw [hrw, div_le_iff₀ hpow]
  calc |x * 10 ^ places - (roundHalfEven (x * 10 ^ places) : ℚ)| ≤ 1 / 2 := h
    _ = 1 / (2 * 10 ^ places) * 10 ^ places := by field_simp

/-- Round half to even fixes the integers. -/
theorem roundHalfEven_intCast (n : ℤ) : roundHalfEven (n : ℚ) = n := by
  unfold roundHalfEven
  rw [Int.fract_intCast, Int.floor_intCast]
  norm_num

/-- C5: initiating a payment computes the crypto amount as the fiat
total divided by the spot price (a fixed EUR 35000 for BTC, EUR 2500
for the Ethereum-style processor), rounded to the currency-specific
precision — 8 decimal places for BTC and 6 for the Ethereum-style
processor — stated as: the result is an integer multiple of the last
retained place and within half of that place of the exact quotient;
and a EUR 49.00 order at BTC spot price EUR 35000.00 yields exactly
0.00140000 BTC. -/
theorem C5_crypto_amount_rounding :
    (∀ eur : ℚ, ∃ n : ℤ,
        BitcoinPaymentProcessor.calculate_crypto_amount eur = (n : ℚ) / 10 ^ 8 ∧
        |eur / BitcoinPaymentProcessor.get_btc_price -
            BitcoinPaymentProcessor.calculate_crypto_amount eur| ≤ 1 / (2 * 10 ^ 8)) ∧
    (∀ eur : ℚ, ∃ n : ℤ,
        EthereumPaymentProcessor.calculate_crypto_amount eur = (n : ℚ) / 10 ^ 6 ∧
        |eur / EthereumPaymentProcessor.get_eth_price -
            EthereumPaymentProcessor.calculate_crypto_amount eur| ≤ 1 / (2 * 10 ^ 6)) ∧
    BitcoinPaymentProcessor.calculate_crypto_amount 49 = 14 / 10000 := by
  refine ⟨fun eur => ⟨roundHalfEven (eur / BitcoinPaymentProcessor.get_btc_price * 10 ^ 8),
      rfl, abs_sub_quantizeDec_le 8 _⟩,
    fun eur => ⟨roundHalfEven (eur / EthereumPaymentProcessor.get_eth_price * 10 ^ 6),
      rfl, abs_sub_quantizeDec_le 6 _⟩, ?_⟩
  unfold BitcoinPaymentProcessor.calculate_crypto_amount
    BitcoinPaymentProcessor.get_btc_price quantizeDec
  have h : ((49 : ℚ) / 35000) * 10 ^ 8 = ((140000 : ℤ) : ℚ) := by norm_num
  rw [h, roundHalfEven_intCast]
  norm_num

/-- C6: the amount-matching test of both address monitors accepts a
received value exactly when it is at least 99 percent of the expected
amount; for a positive expected amount, 0.5 percent short is accepted,
2 percent short is rejected, and any overpayment is accepted. -/
theorem C6_amount_tolerance (expected received : ℚ) (hpos : 0 < expected) :
    (BitcoinPaymentProcessor.monitor_address_accepts expected received = true ↔
      expected * (99 / 100) ≤ received) ∧
    (EthereumPaymentProcessor.monitor_address_accepts expected received = true ↔
      expected * (99 / 100) ≤ received) ∧
    BitcoinPaymentProcessor.monitor_address_accepts expected
      (expected * (995 / 1000)) = true ∧
    BitcoinPaymentProcessor.monitor_address_accepts expected
      (expected * (98 / 100)) = false ∧
    EthereumPaymentProcessor.monitor_address_accepts expected
      (expected * (995 / 1000)) = true ∧
    EthereumPaymentProcessor.monitor_address_accepts expected
      (expected * (98 / 100)) = false ∧
    (expected ≤ received →
      BitcoinPaymentProcessor.monitor_address_accepts expected received = true ∧
      EthereumPaymentProcessor.monitor_address_accepts expected received = true) := by
  unfold BitcoinPaymentProcessor.monitor_address_accepts
    EthereumPaymentProcessor.monitor_address_accepts
  simp only [decide_eq_true_eq, decide_eq_false_iff_not, not_le]
  exact ⟨trivial, trivial, by nlinarith, by nlinarith, by nlinarith, by nlinarith,
    fun h => ⟨by nlinarith, by nlinarith⟩⟩

/-- Witness for C6 at expected = 2, received = 3. -/
theorem C6_amount_tolerance_witness :
    (0 : ℚ) < 2 ∧
    BitcoinPaymentProcessor.monitor_address_accepts 2 (2 * (995 / 1000)) = true ∧
    BitcoinPaymentProcessor.monitor_address_accepts 2 (2 * (98 / 100)) = false ∧
    BitcoinPaymentProcessor.monitor_address_accepts 2 3 = true :=
  ⟨by norm_num, (C6_amount_tolerance 2 3 (by norm_num)).2.2.1,
    (C6_amount_tolerance 2 3 (by norm_num)).2.2.2.1,
    ((C6_amount_tolerance 2 3 (by norm_num)).2.2.2.2.2.2 (by norm_num)).1⟩

/-- C1 counterexample: a payment storing 5 confirmations receives a
webhook carrying 2; the endpoint stores 2, so the stored count
decreases instead of staying at 5 as the claim states. -/
theorem C1_counterexample :
    (payment_webhook 100 { transaction_hash := "tx1", confirmations := 2 }
        { basePayment with status := PaymentStatus.processing,
                           transaction_hash := "tx1", confirmations := 5 }
        baseOrder).1.confirmations = 2 ∧
    ({ basePayment with status := PaymentStatus.processing,
                        transaction_hash := "tx1",
                        confirmations := 5 } : Payment).confirmations = 5 ∧
    (2 : ℤ) < 5 :=
  ⟨rfl, rfl, by norm_num⟩

/-- C1 (amended): neither the webhook endpoint nor the
confirmation-monitoring task compares the incoming confirmation count
with the stored one — both store the incoming value unconditionally, so
a lower value overwrites the stored count and the count is not
monotonic. -/
theorem C1_confirmations_overwritten (now : Nat) (data : WebhookPayload)
    (p q : Payment) (o : Order) (info : TxInfo)
    (hq : q.status = PaymentStatus.processing) (hh : q.transaction_hash ≠ "") :
    (payment_webhook now data p o).1.confirmations = data.confirmations ∧
    (monitor_transaction_confirmations now (some info) q o).1.confirmations =
      info.confirmations := by
  constructor
  · by_cases h : p.required_confirmations ≤ data.confirmations <;>
      simp [payment_webhook, h]
  · by_cases h : q.required_confirmations ≤ info.confirmations <;>
      simp [monitor_transaction_confirmations, hq, hh, h]

/-- Witness for C1 (amended) at a concrete processing payment. -/
theorem C1_confirmations_overwritten_witness :
    (payment_webhook 100 { transaction_hash := "tx1", confirmations := 2 }
        basePayment baseOrder).1.confirmations = 2 ∧
    (monitor_transaction_confirmations 100 (some { confirmations := 1 })
        { basePayment with status := PaymentStatus.processing,
                           transaction_hash := "tx1" }
        baseOrder).1.confirmations = 1 :=
  C1_confirmations_overwritten 100 { transaction_hash := "tx1", confirmations := 2 }
    basePayment
    { basePayment with status := PaymentStatus.processing, transaction_hash := "tx1" }
    baseOrder { confirmations := 1 } rfl (by simp)

/-- C2 counterexample: a payment in the terminal status expired, with
recorded transaction hash tx1, receives a webhook payload referencing
the foreign hash tx2; the endpoint overwrites the stored hash with tx2
instead of rejecting the payload without mutation. -/
theorem C2_counterexample :
    (payment_webhook 100 { transaction_hash := "tx2", confirmations := 1 }
        { basePayment with status := PaymentStatus.expired,
                           transaction_hash := "tx1" }
        baseOrder).1.transaction_hash = "tx2" ∧
    ({ basePayment with status := PaymentStatus.expired,
                        transaction_hash := "tx1" } : Payment).status ≠
      PaymentStatus.processing ∧
    ({ basePayment with status := PaymentStatus.expired,
                        transaction_hash := "tx1" } : Payment).transaction_hash ≠
      "tx2" :=
  ⟨rfl, by simp, by simp⟩

/-- C2 (amended): the webhook endpoint checks neither the payment's
status nor whether the payload's transaction hash matches the recorded
one; it overwrites the stored hash and confirmation count with the
payload's values for every payment it finds (only a payload whose
payment_id matches no row is rejected, with a 404). -/
theorem C2_webhook_applies_unconditionally (now : Nat) (data : WebhookPayload)
    (p : Payment) (o : Order) :
    (payment_webhook now data p o).1.transaction_hash = data.transaction_hash ∧
    (payment_webhook now data p o).1.confirmations = data.confirmations := by
  by_cases h : p.required_confirmations ≤ data.confirmations <;>
    simp [payment_webhook, h]

/-- C3 counterexample: a pending payment whose transaction hash tx1 was
recorded (a transaction was observed) times out; the sweep still
releases its wallet, setting is_used to false on a wallet that was
marked used — the claim says an observed transaction keeps the wallet
permanently used. -/
theorem C3_counterexample :
    (expire_step 2000
        ({ basePayment with transaction_hash := "tx1" }, baseOrder,
          [{ currency := "BTC", address := "tb1qsample", is_used := true }])).2.2 =
      [{ currency := "BTC", address := "tb1qsample", is_used := false }] ∧
    ({ basePayment with transaction_hash := "tx1" } : Payment).transaction_hash ≠ "" ∧
    (expire_step 2000
        ({ basePayment with transaction_hash := "tx1" }, baseOrder,
          [{ currency := "BTC", address := "tb1qsample", is_used := true }])).1.status =
      PaymentStatus.expired :=
  ⟨rfl, by simp, rfl⟩

/-- C3 (amended): the sweep releases (is_used := false) every wallet of
every payment it expires, whether or not a transaction hash was ever
recorded on the payment; moreover no operation ever sets is_used to
true — the wallet created at initiation already carries is_used =
false. -/
theorem C3_wallets_released_unconditionally (now e : Nat) (p : Payment)
    (o : Order) (ws : List CryptoWallet)
    (hp : p.status = PaymentStatus.pending)
    (he : p.expires_at = some e) (hlt : e < now) :
    (expire_step now (p, o, ws)).2.2 =
      ws.map (fun w => { w with is_used := false }) ∧
    (∀ (t : Nat) (total : ℚ) (method : PaymentMethod) (addr : String)
        (ex : Option Payment) (p' : Payment) (w' : CryptoWallet),
      initiate_payment t total method addr ex = InitiateOutcome.created p' w' →
      w'.is_used = false) := by
  constructor
  · have hcond : pendingAndTimedOut now p = true := by
      unfold pendingAndTimedOut
      rw [he]
      simp [hp, hlt]
    simp [expire_step, hcond]
  · intro t total method addr ex p' w' hcr
    unfold initiate_payment at hcr
    split at hcr
    · exact absurd hcr (by simp)
    · cases ex with
      | some prev => exact absurd hcr (by simp)
      | none =>
          cases hcr
          rfl

/-- Witness for C3 (amended) at the sample pending payment, expiring at
1800, swept at time 2000. -/
theorem C3_wallets_released_unconditionally_witness :
    (expire_step 2000 (basePayment, baseOrder,
        [{ currency := "BTC", address := "tb1qsample", is_used := true }])).2.2 =
      [{ currency := "BTC", address := "tb1qsample", is_used := false }] ∧
    (∀ (t : Nat) (total : ℚ) (method : PaymentMethod) (addr : String)
        (ex : Option Payment) (p' : Payment) (w' : CryptoWallet),
      initiate_payment t total method addr ex = InitiateOutcome.created p' w' →
      w'.is_used = false) :=
  C3_wallets_released_unconditionally 2000 1800 basePayment baseOrder
    [{ currency := "BTC", address := "tb1qsample", is_used := true }]
    rfl rfl (by norm_num)

/-- C4: the expiry sweep's per-payment step leaves a payment in status
processing — together with its order and wallet rows — completely
unchanged, whatever the clock says. -/
theorem C4_sweep_ignores_processing (now : Nat) (p : Payment) (o : Order)
    (ws : List CryptoWallet) (h : p.status = PaymentStatus.processing) :
    expire_step now (p, o, ws) = (p, o, ws) := by
  have hcond : pendingAndTimedOut now p = false := by
    unfold pendingAndTimedOut
    simp [h]
  simp [expire_step, hcond]

/-- Witness for C4 at a concrete processing payment whose expiry time
has long passed. -/
theorem C4_sweep_ignores_processing_witness :
    expire_step 1000000
        ({ basePayment with status := PaymentStatus.processing,
                            transaction_hash := "tx1" }, baseOrder, []) =
      ({ basePayment with status := PaymentStatus.processing,
                          transaction_hash := "tx1" }, baseOrder, []) :=
  C4_sweep_ignores_processing 1000000
    { basePayment with status := PaymentStatus.processing,
                       transaction_hash := "tx1" }
    baseOrder [] rfl

/-- C7: evaluating the initiate endpoint model at the failing input.
An order whose existing payment is failed passes the duplicate check,
but the create then violates the one-to-one constraint on
Payment.order, so no new payment is created (integrity error) — the
claim's re-initiation after failure is impossible.  The other two
conjuncts record the behaviour the claim gets right: a non-failed
existing payment answers the 400 duplicate error, and an order with no
payment gets a fresh pending payment. -/
theorem C7_failed_payment_blocks_reinitiation :
    initiate_payment 0 49 PaymentMethod.crypto_btc "tb1qnew"
        (some { basePayment with status := PaymentStatus.failed }) =
      InitiateOutcome.integrity_error ∧
    initiate_payment 0 49 PaymentMethod.crypto_btc "tb1qnew" (some basePayment) =
      InitiateOutcome.http400_duplicate ∧
    (∃ (p : Payment) (w : CryptoWallet),
      initiate_payment 0 49 PaymentMethod.crypto_btc "tb1qnew" none =
        InitiateOutcome.created p w ∧ p.status = PaymentStatus.pending) :=
  ⟨rfl, rfl, ⟨_, _, rfl, rfl⟩⟩

/-- C8 counterexample: the same above-threshold payload applied at time
10 and again at time 20 does not reproduce the single-application
state — the second application re-stamps confirmed_at (and paid_at)
with its own time. -/
theorem C8_counterexample :
    (payment_webhook 20 { transaction_hash := "tx1", confirmations := 3 }
        (payment_webhook 10 { transaction_hash := "tx1", confirmations := 3 }
          { basePayment with status := PaymentStatus.processing,
                             transaction_hash := "tx1" } baseOrder).1
        (payment_webhook 10 { transaction_hash := "tx1", confirmations := 3 }
          { basePayment with status := PaymentStatus.processing,
                             transaction_hash := "tx1" } baseOrder).2).1 ≠
      (payment_webhook 10 { transaction_hash := "tx1", confirmations := 3 }
          { basePayment with status := PaymentStatus.processing,
                             transaction_hash := "tx1" } baseOrder).1 := by
  intro h
  have := congrArg Payment.confirmed_at h
  simp [payment_webhook, basePayment] at this

/-- C8 (amended): applying the same (tx_hash, confirmations) payload
twice yields the state of a single application provided the second
application carries the same timestamp; a below-threshold payload is
idempotent across any timestamps; an above-threshold payload
re-applied at a later time changes exactly the confirmed_at and
paid_at stamps to the later time. -/
theorem C8_webhook_idempotent_up_to_stamps (t1 t2 : Nat)
    (data : WebhookPayload) (p : Payment) (o : Order) :
    (payment_webhook t1 data (payment_webhook t1 data p o).1
        (payment_webhook t1 data p o).2 = payment_webhook t1 data p o) ∧
    (data.confirmations < p.required_confirmations →
      payment_webhook t2 data (payment_webhook t1 data p o).1
          (payment_webhook t1 data p o).2 = payment_webhook t1 data p o) ∧
    (p.required_confirmations ≤ data.confirmations →
      payment_webhook t2 data (payment_webhook t1 data p o).1
          (payment_webhook t1 data p o).2 =
        ({ (payment_webhook t1 data p o).1 with confirmed_at := some t2 },
         { (payment_webhook t1 data p o).2 with paid_at := some t2 })) := by
  refine ⟨?_, ?_, ?_⟩
  · by_cases h : p.required_confirmations ≤ data.confirmations <;>
      simp [payment_webhook, h]
  · intro h
    rw [← not_le] at h
    simp [payment_webhook, h]
  · intro h
    simp [payment_webhook, h]

/-- Witness for C8 (amended): the same-timestamp conjunct at the sample
payment, the below-threshold conjunct discharged with 1 < 3, and the
above-threshold conjunct discharged with 3 ≤ 3. -/
theorem C8_webhook_idempotent_up_to_stamps_witness :
    (payment_webhook 10 { transaction_hash := "tx1", confirmations := 1 }
        (payment_webhook 10 { transaction_hash := "tx1", confirmations := 1 }
          basePayment baseOrder).1
        (payment_webhook 10 { transaction_hash := "tx1", confirmations := 1 }
          basePayment baseOrder).2 =
      payment_webhook 10 { transaction_hash := "tx1", confirmations := 1 }
        basePayment baseOrder) ∧
    (payment_webhook 20 { transaction_hash := "tx1", confirmations := 1 }
        (payment_webhook 10 { transaction_hash := "tx1", confirmations := 1 }
          basePayment baseOrder).1
        (payment_webhook 10 { transaction_hash := "tx1", confirmations := 1 }
          basePayment baseOrder).2 =
      payment_webhook 10 { transaction_hash := "tx1", confirmations := 1 }
        basePayment baseOrder) ∧
    (payment_webhook 20 { transaction_hash := "tx1", confirmations := 3 }
        (payment_webhook 10 { transaction_hash := "tx1", confirmations := 3 }
          basePayment baseOrder).1
        (payment_webhook 10 { transaction_hash := "tx1", confirmations := 3 }
          basePayment baseOrder).2 =
      ({ (payment_webhook 10 { transaction_hash := "tx1", confirmations := 3 }
            basePayment baseOrder).1 with confirmed_at := some 20 },
       { (payment_webhook 10 { transaction_hash := "tx1", confirmations := 3 }
            basePayment baseOrder).2 with paid_at := some 20 })) :=
  ⟨(C8_webhook_idempotent_up_to_stamps 10 20
      { transaction_hash := "tx1", confirmations := 1 } basePayment baseOrder).1,
   (C8_webhook_idempotent_up_to_stamps 10 20
      { transaction_hash := "tx1", confirmations := 1 } basePayment baseOrder).2.1
      (by norm_num [basePayment]),
   (C8_webhook_idempotent_up_to_stamps 10 20
      { transaction_hash := "tx1", confirmations := 3 } basePayment baseOrder).2.2
      (by norm_num [basePayment])⟩

/-- C9 counterexample: a payment reaching its threshold while the order
is already shipped (paid_at stamped 5) does not leave the order
unchanged — the endpoint moves the order back to paid and re-stamps
paid_at with the current time 20. -/
theorem C9_counterexample :
    (payment_webhook 20 { transaction_hash := "tx1", confirmations := 3 }
        { basePayment with status := PaymentStatus.processing,
                           transaction_hash := "tx1" }
        { baseOrder with status := OrderStatus.shipped, paid_at := some 5 }).2 =
      { baseOrder with status := OrderStatus.paid, paid_at := some 20 } ∧
    OrderStatus.shipped ≠ OrderStatus.paid :=
  ⟨rfl, by simp⟩

/-- C9 (amended): when a payment reaches its confirmation threshold —
through the webhook endpoint or the monitoring task — the order's
status is unconditionally set to paid and paid_at is re-stamped with
the current time, whatever status and stamp the order had (including
already paid, shipped or delivered). -/
theorem C9_mark_paid_unconditional (now : Nat) (data : WebhookPayload)
    (p q : Payment) (o : Order) (info : TxInfo)
    (hw : p.required_confirmations ≤ data.confirmations)
    (hq : q.status = PaymentStatus.processing) (hh : q.transaction_hash ≠ "")
    (hm : q.required_confirmations ≤ info.confirmations) :
    (payment_webhook now data p o).2 =
      { o with status := OrderStatus.paid, paid_at := some now } ∧
    (monitor_transaction_confirmations now (some info) q o).2 =
      { o with status := OrderStatus.paid, paid_at := some now } := by
  constructor
  · simp [payment_webhook, hw]
  · simp [monitor_transaction_confirmations, hq, hh, hm]

/-- Witness for C9 (amended) on a shipped order. -/
theorem C9_mark_paid_unconditional_witness :
    (payment_webhook 20 { transaction_hash := "tx1", confirmations := 3 }
        basePayment
        { baseOrder with status := OrderStatus.shipped, paid_at := some 5 }).2 =
      { { baseOrder with status := OrderStatus.shipped, paid_at := some 5 } with
          status := OrderStatus.paid, paid_at := some 20 } ∧
    (monitor_transaction_confirmations 20 (some { confirmations := 3 })
        { basePayment with status := PaymentStatus.processing,
                           transaction_hash := "tx1" }
        { baseOrder with status := OrderStatus.shipped, paid_at := some 5 }).2 =
      { { baseOrder with status := OrderStatus.shipped, paid_at := some 5 } with
          status := OrderStatus.paid, paid_at := some 20 } :=
  C9_mark_paid_unconditional 20 { transaction_hash := "tx1", confirmations := 3 }
    basePayment
    { basePayment with status := PaymentStatus.processing,
                       transaction_hash := "tx1" }
    { baseOrder with status := OrderStatus.shipped, paid_at := some 5 }
    { confirmations := 3 }
    (by norm_num [basePayment]) rfl (by simp) (by norm_num [basePayment])

/-- C10: a webhook whose confirmation count is below the threshold,
applied to a pending payment, records the hash and the count but leaves
the status pending and the order untouched; the payment — though a
transaction was observed — still matches the sweep's filter once
expires_at has passed, and the sweep expires it. -/
theorem C10_subthreshold_webhook_keeps_pending (now now2 e : Nat)
    (data : WebhookPayload) (p : Payment) (o : Order) (ws : List CryptoWallet)
    (hp : p.status = PaymentStatus.pending)
    (hc : data.confirmations < p.required_confirmations)
    (he : p.expires_at = some e) (hlt : e < now2) :
    (payment_webhook now data p o).1.status = PaymentStatus.pending ∧
    (payment_webhook now data p o).1.transaction_hash = data.transaction_hash ∧
    (payment_webhook now data p o).1.confirmations = data.confirmations ∧
    (payment_webhook now data p o).2 = o ∧
    (expire_step now2 ((payment_webhook now data p o).1,
        (payment_webhook now data p o).2, ws)).1.status = PaymentStatus.expired := by
  rw [← not_le] at hc
  have hr : payment_webhook now data p o =
      ({ p with transaction_hash := data.transaction_hash,
                confirmations := data.confirmations }, o) := by
    simp [payment_webhook, hc]
  rw [hr]
  refine ⟨hp, rfl, rfl, rfl, ?_⟩
  have hcond : pendingAndTimedOut now2
      ({ p with transaction_hash := data.transaction_hash,
                confirmations := data.confirmations } : Payment) = true := by
    unfold pendingAndTimedOut
    simp only []
    rw [he]
    simp [hp, hlt]
  simp [expire_step, hcond]

/-- Witness for C10: the sample pending payment gets a 1-confirmation
webhook at time 100 and is swept at time 2000 (expiry 1800). -/
theorem C10_subthreshold_webhook_keeps_pending_witness :
    (payment_webhook 100 { transaction_hash := "tx1", confirmations := 1 }
        basePayment baseOrder).1.status = PaymentStatus.pending ∧
    (payment_webhook 100 { transaction_hash := "tx1", confirmations := 1 }
        basePayment baseOrder).1.transaction_hash = "tx1" ∧
    (payment_webhook 100 { transaction_hash := "tx1", confirmations := 1 }
        basePayment baseOrder).1.confirmations = 1 ∧
    (payment_webhook 100 { transaction_hash := "tx1", confirmations := 1 }
        basePayment baseOrder).2 = baseOrder ∧
    (expire_step 2000 ((payment_webhook 100
        { transaction_hash := "tx1", confirmations := 1 } basePayment baseOrder).1,
        (payment_webhook 100 { transaction_hash := "tx1", confirmations := 1 }
          basePayment baseOrder).2, [])).1.status = PaymentStatus.expired :=
  C10_subthreshold_webhook_keeps_pending 100 2000 1800
    { transaction_hash := "tx1", confirmations := 1 } basePayment baseOrder []
    rfl (by norm_num [basePayment]) rfl (by norm_num)
